/-
  Verification of the RiskRadar fire-risk scoring core.

  The embedding below translates the scoring, classification and heatmap
  logic of the two dashboard variants
  (src/riskradar_app.py and src/app_with_date_selector.py) into Lean,
  using rational numbers for the numeric values.  Definitions named
  spec_... are transcribed from the natural-language specification for
  comparison with the code; the synthetic heatmap generator, which has no
  code in the repository, is modelled from the specification text.
-/
import Mathlib

/-- Temperature sub-score, lines 231-237 of app_with_date_selector.py and
lines 179-185 of riskradar_app.py (the code is identical in both files). -/
def temp_factor (temperature : ℚ) : ℚ :=
  if temperature < 25 then 0
  else if temperature ≥ 40 then 1
  else (temperature - 25) / 15

/-- Humidity sub-score, lines 239-245 of app_with_date_selector.py
(inverse relationship; the riskradar_app.py variant has no humidity factor). -/
def humidity_factor (humidity : ℚ) : ℚ :=
  if humidity ≥ 70 then 0
  else if humidity ≤ 20 then 1
  else (70 - humidity) / 50

/-- Wind-speed sub-score, lines 247-253 of app_with_date_selector.py and
lines 187-193 of riskradar_app.py (identical in both files). -/
def wind_factor (wind_speed : ℚ) : ℚ :=
  if wind_speed < 5 then 0.2
  else if wind_speed ≥ 25 then 1
  else (wind_speed - 5) / 20

/-- Precipitation sub-score, lines 255-261 of app_with_date_selector.py and
lines 195-201 of riskradar_app.py (identical in both files). -/
def precip_factor (precipitation : ℚ) : ℚ :=
  if precipitation > 10 then 0
  else if precipitation ≤ 0 then 1
  else (10 - precipitation) / 10

/-- Weather-type lookup table, lines 203-216 of riskradar_app.py:
named risk multipliers with default 0.5 for unrecognized labels. -/
def weather_risk (wt : String) : ℚ :=
  if wt = "clear" then 0.8
  else if wt = "sunny" then 0.8
  else if wt = "cloudy" then 0.4
  else if wt = "partly cloudy" then 0.5
  else if wt = "overcast" then 0.3
  else if wt = "rain" then 0.0
  else if wt = "drizzle" then 0.2
  else if wt = "thunderstorm" then 0.1
  else if wt = "fog" then 0.3
  else if wt = "mist" then 0.3
  else 0.5

namespace AppWithDateSelector

/-- Core of calculate_risk_from_weather, lines 231-271 of
app_with_date_selector.py: the weighted combination of the four factor
sub-scores, multiplied by 10. -/
def risk_score (temperature humidity wind_speed precipitation : ℚ) : ℚ :=
  (0.35 * temp_factor temperature +
   0.25 * humidity_factor humidity +
   0.25 * wind_factor wind_speed +
   0.15 * precip_factor precipitation) * 10

end AppWithDateSelector

namespace RiskradarApp

/-- Core of calculate_risk_from_weather, lines 179-227 of riskradar_app.py:
weighted combination of temperature, wind, precipitation and the categorical
weather-type factor (the weather type string is lowercased before lookup). -/
def risk_score (temperature wind_speed precipitation : ℚ)
    (weather_type : String) : ℚ :=
  (0.35 * temp_factor temperature +
   0.30 * wind_factor wind_speed +
   0.20 * precip_factor precipitation +
   0.15 * weather_risk weather_type.toLower) * 10

end RiskradarApp

/-- Three-tier risk zone. -/
inductive Zone
  | safe
  | moderate
  | danger
deriving DecidableEq

/-- Zone classification, lines 465-482 of app_with_date_selector.py and
lines 390-407 of riskradar_app.py (identical if-elif-else chain on the
risk score in both files). -/
def classify (risk_score : ℚ) : Zone :=
  if risk_score ≤ 3 then .safe
  else if risk_score ≤ 6 then .moderate
  else .danger

/-- One row of the NASA FIRMS detection table, as read by
create_heatmap_from_firms in both files. -/
structure FirmsRow where
  latitude : ℚ
  longitude : ℚ
  bright_t31 : ℚ
  frp : ℚ

/-- Loop body of create_heatmap_from_firms, lines 289-307 of
app_with_date_selector.py and lines 246-266 of riskradar_app.py
(identical in both files): normalize brightness and fire radiative power,
combine, clamp to the range from 0.1 to 1.0. -/
def hot_point (row : FirmsRow) : ℚ × ℚ × ℚ :=
  let brightness_norm := (row.bright_t31 - 300) / 100
  let brightness_norm := max 0 (min brightness_norm 1)
  let frp_norm := row.frp / 100
  let frp_norm := max 0 (min frp_norm 1)
  let intensity := 0.6 * frp_norm + 0.4 * brightness_norm
  let intensity := max 0.1 (min intensity 1.0)
  (row.latitude, row.longitude, intensity)

namespace AppWithDateSelector

/-- create_heatmap_from_firms, lines 277-309 of app_with_date_selector.py:
fallback point with intensity 0.1 when no detections are present, otherwise
one point appended per detection row. -/
def create_heatmap_from_firms (firms_data : List FirmsRow) : List (ℚ × ℚ × ℚ) :=
  if firms_data.isEmpty then [(36.7783, -119.4179, 0.1)]
  else firms_data.foldl (fun heatmap_data row => heatmap_data ++ [hot_point row]) []

end AppWithDateSelector

namespace RiskradarApp

/-- create_heatmap_from_firms, lines 233-268 of riskradar_app.py: identical
to the date-selector variant except that the fallback point carries
intensity 0.5. -/
def create_heatmap_from_firms (firms_data : List FirmsRow) : List (ℚ × ℚ × ℚ) :=
  if firms_data.isEmpty then [(36.7783, -119.4179, 0.5)]
  else firms_data.foldl (fun heatmap_data row => heatmap_data ++ [hot_point row]) []

end RiskradarApp

/-- A weather record as handed to calculate_risk_from_weather: a pandas
Series, modelled as an association list from field names to numeric values
(the record is empty exactly when the list is). -/
structure WeatherSeries where
  entries : List (String × ℚ)

/-- Field access on a WeatherSeries; none models an absent label. -/
def lookup (wd : WeatherSeries) (k : String) : Option ℚ :=
  (wd.entries.find? (fun e => e.1 == k)).map (fun e => e.2)

/-- Extraction of a required field: an absent label raises KeyError in
Python, modelled as an error carrying the requested key. -/
def getField (wd : WeatherSeries) (k : String) : Except String ℚ :=
  match lookup wd k with
  | some v => Except.ok v
  | none => Except.error k

def temperature_key : String := "temperature"

def humidity_key : String := "humidity"

def wind_speed_key : String := "wind_speed"

def precipitation_key : String := "precipitation"

namespace AppWithDateSelector

/-- calculate_risk_from_weather, lines 216-271 of app_with_date_selector.py,
including its input handling: an empty record returns the default score 5.0
(line 223); otherwise the four required fields are extracted in source
order (lines 226-229, a missing one raising KeyError) and the weighted
score is computed. -/
def calculate_risk_from_weather (weather_data : WeatherSeries) : Except String ℚ :=
  if weather_data.entries.isEmpty then Except.ok 5
  else
    match getField weather_data temperature_key with
    | Except.error k => Except.error k
    | Except.ok t =>
      match getField weather_data humidity_key with
      | Except.error k => Except.error k
      | Except.ok h =>
        match getField weather_data wind_speed_key with
        | Except.error k => Except.error k
        | Except.ok w =>
          match getField weather_data precipitation_key with
          | Except.error k => Except.error k
          | Except.ok p => Except.ok (risk_score t h w p)

end AppWithDateSelector

/-- Spec model: the published temperature clamp (25 to 40 direct, floor 0.0,
ceiling 1.0, linear in between; boundary exactness 25 to 0.0, 40 to 1.0,
32.5 to 0.5). -/
def spec_temp_factor (t : ℚ) : ℚ :=
  if t ≤ 25 then 0
  else if t ≥ 40 then 1
  else (t - 25) / 15

/-- Spec model: the published humidity clamp (20 to 70 inverse; boundary
exactness 20 to 1.0, 70 to 0.0, 45 to 0.5). -/
def spec_humidity_factor (h : ℚ) : ℚ :=
  if h ≤ 20 then 1
  else if h ≥ 70 then 0
  else (70 - h) / 50

/-- Spec model: the published wind clamp (5 to 25 direct with floor 0.2;
boundary exactness 5 to 0.2 and 25 to 1.0; between the thresholds the
interpolation is taken as in the code, so that the spec and the code can
only disagree at the boundaries). -/
def spec_wind_factor (w : ℚ) : ℚ :=
  if w ≤ 5 then 0.2
  else if w ≥ 25 then 1
  else (w - 5) / 20

/-- Spec model: the published precipitation clamp (0 to 10 inverse). -/
def spec_precip_factor (p : ℚ) : ℚ :=
  if p ≤ 0 then 1
  else if p ≥ 10 then 0
  else (10 - p) / 10

/-- Modelled from the spec: the repository has no synthetic-mode spatial
intensity generator under src, so its fixed-seed pseudo-random source is
modelled as a linear congruential generator over a 31-bit state. -/
def lcg (s : ℕ) : ℕ := (1103515245 * s + 12345) % 2147483648

/-- Modelled from the spec: a generator state mapped into the unit
interval. -/
def lcg_unit (s : ℕ) : ℚ := (s : ℚ) / 2147483648

/-- Modelled from the spec: the synthetic scatter loop, producing one point
per step within plus or minus 0.3 degrees of the center, with intensity
interpolated between the given bounds. -/
def synthetic_points (clat clon lo hi : ℚ) : ℕ → ℕ → List (ℚ × ℚ × ℚ)
  | 0, _ => []
  | n + 1, s =>
    let s1 := lcg s
    let s2 := lcg s1
    let s3 := lcg s2
    (clat - 0.3 + 0.6 * lcg_unit s1,
     clon - 0.3 + 0.6 * lcg_unit s2,
     lo + (hi - lo) * lcg_unit s3) :: synthetic_points clat clon lo hi n s3

/-- Modelled from the spec: the synthetic-mode generator, absent from src.
Given a center coordinate and the risk score it generates
15 + 3 * round(score) points within plus or minus 0.3 degrees of the
center, each intensity drawn from the interval from 0.5 * (score / 10) to
min 1 (1.2 * (score / 10)), from the fixed seed 42. -/
def generate_synthetic_heatmap (clat clon score : ℚ) : List (ℚ × ℚ × ℚ) :=
  synthetic_points clat clon (0.5 * (score / 10)) (min 1 (1.2 * (score / 10)))
    (15 + 3 * round score).toNat 42

/-- The temperature sub-score always lies in the unit interval. -/
theorem temp_factor_bounds (t : ℚ) : 0 ≤ temp_factor t ∧ temp_factor t ≤ 1 := by
  unfold temp_factor
  split_ifs with h1 h2
  · norm_num
  · norm_num
  · constructor
    · apply div_nonneg (by linarith) (by norm_num)
    · rw [div_le_one (by norm_num)]
      linarith

/-- The humidity sub-score always lies in the unit interval. -/
theorem humidity_factor_bounds (h : ℚ) : 0 ≤ humidity_factor h ∧ humidity_factor h ≤ 1 := by
  unfold humidity_factor
  split_ifs with h1 h2
  · norm_num
  · norm_num
  · constructor
    · apply div_nonneg (by linarith) (by norm_num)
    · rw [div_le_one (by norm_num)]
      linarith

/-- The wind sub-score always lies in the unit interval. -/
theorem wind_factor_bounds (w : ℚ) : 0 ≤ wind_factor w ∧ wind_factor w ≤ 1 := by
  unfold wind_factor
  split_ifs with h1 h2
  · norm_num
  · norm_num
  · constructor
    · apply div_nonneg (by linarith) (by norm_num)
    · rw [div_le_one (by norm_num)]
      linarith

/-- The precipitation sub-score always lies in the unit interval. -/
theorem precip_factor_bounds (p : ℚ) : 0 ≤ precip_factor p ∧ precip_factor p ≤ 1 := by
  unfold precip_factor
  split_ifs with h1 h2
  · norm_num
  · norm_num
  · constructor
    · apply div_nonneg (by linarith) (by norm_num)
    · rw [div_le_one (by norm_num)]
      linarith

/-- The weather-type multiplier always lies in the unit interval. -/
theorem weather_risk_bounds (wt : String) : 0 ≤ weather_risk wt ∧ weather_risk wt ≤ 1 := by
  unfold weather_risk
  split_ifs <;> norm_num

/-- The temperature sub-score is monotone nondecreasing. -/
theorem temp_factor_mono {a b : ℚ} (hab : a ≤ b) : temp_factor a ≤ temp_factor b := by
  unfold temp_factor
  split_ifs <;> linarith

/-- The humidity sub-score is monotone nonincreasing. -/
theorem humidity_factor_anti {a b : ℚ} (hab : a ≤ b) : humidity_factor b ≤ humidity_factor a := by
  unfold humidity_factor
  split_ifs <;> linarith

/-- The precipitation sub-score is monotone nonincreasing. -/
theorem precip_factor_anti {a b : ℚ} (hab : a ≤ b) : precip_factor b ≤ precip_factor a := by
  unfold precip_factor
  split_ifs <;> linarith

/-- Appending one element per step in a left fold is exactly a map. -/
theorem foldl_append_map (f : FirmsRow → ℚ × ℚ × ℚ) :
    ∀ (l : List FirmsRow) (acc : List (ℚ × ℚ × ℚ)),
      l.foldl (fun a r => a ++ [f r]) acc = acc ++ l.map f := by
  intro l
  induction l with
  | nil => intro acc; simp
  | cons hd tl ih =>
    intro acc
    simp [List.foldl_cons, ih]

/-- The spec temperature clamp coincides with the code. -/
theorem spec_temp_factor_eq (t : ℚ) : spec_temp_factor t = temp_factor t := by
  unfold spec_temp_factor temp_factor
  split_ifs <;> linarith

/-- The spec humidity clamp coincides with the code. -/
theorem spec_humidity_factor_eq (h : ℚ) : spec_humidity_factor h = humidity_factor h := by
  unfold spec_humidity_factor humidity_factor
  split_ifs <;> linarith

/-- The spec precipitation clamp coincides with the code. -/
theorem spec_precip_factor_eq (p : ℚ) : spec_precip_factor p = precip_factor p := by
  unfold spec_precip_factor precip_factor
  split_ifs <;> linarith

/-- Away from the boundary value 5 the spec wind clamp coincides with the
code. -/
theorem spec_wind_factor_eq_of_ne {w : ℚ} (hw : w ≠ 5) :
    spec_wind_factor w = wind_factor w := by
  unfold spec_wind_factor wind_factor
  split_ifs with h1 h2 h3 h4 <;> try linarith
  · exact absurd (by linarith : w = 5) hw

/-- The generator state is always below the modulus. -/
theorem lcg_lt (s : ℕ) : lcg s < 2147483648 :=
  Nat.mod_lt _ (by norm_num)

/-- A generator state maps to a nonnegative rational. -/
theorem lcg_unit_nonneg (s : ℕ) : 0 ≤ lcg_unit s := by
  unfold lcg_unit
  positivity

/-- A state below the modulus maps into the unit interval. -/
theorem lcg_unit_le_one {s : ℕ} (hs : s < 2147483648) : lcg_unit s ≤ 1 := by
  unfold lcg_unit
  rw [div_le_one (by norm_num)]
  exact_mod_cast hs.le

/-- The synthetic scatter produces exactly the requested number of points. -/
theorem synthetic_points_length (clat clon lo hi : ℚ) :
    ∀ (n s : ℕ), (synthetic_points clat clon lo hi n s).length = n := by
  intro n
  induction n with
  | zero => intro s; simp [synthetic_points]
  | succ n ih => intro s; simp [synthetic_points, ih]

/-- Every synthetic point stays within the scatter box and its intensity
within the given bounds. -/
theorem synthetic_points_mem (clat clon lo hi : ℚ) (hlh : lo ≤ hi) :
    ∀ (n s : ℕ), ∀ pt ∈ synthetic_points clat clon lo hi n s,
      clat - 0.3 ≤ pt.1 ∧ pt.1 ≤ clat + 0.3 ∧
      clon - 0.3 ≤ pt.2.1 ∧ pt.2.1 ≤ clon + 0.3 ∧
      lo ≤ pt.2.2 ∧ pt.2.2 ≤ hi := by
  intro n
  induction n with
  | zero => intro s pt hpt; simp [synthetic_points] at hpt
  | succ n ih =>
    intro s pt hpt
    rw [synthetic_points] at hpt
    rcases List.mem_cons.mp hpt with hhd | htl
    · subst hhd
      have hu1a := lcg_unit_nonneg (lcg s)
      have hu1b := lcg_unit_le_one (lcg_lt s)
      have hu2a := lcg_unit_nonneg (lcg (lcg s))
      have hu2b := lcg_unit_le_one (lcg_lt (lcg s))
      have hu3a := lcg_unit_nonneg (lcg (lcg (lcg s)))
      have hu3b := lcg_unit_le_one (lcg_lt (lcg (lcg s)))
      refine ⟨by nlinarith, by nlinarith, by nlinarith, by nlinarith, by nlinarith, by nlinarith⟩
    · exact ih _ pt htl

/-- Claim C2: for every weather reading with numeric values for the
required factors, the score returned by calculate_risk_from_weather lies
between 0.0 and 10.0 inclusive, in both variants of the function. -/
theorem risk_score_bounds :
    (∀ t h w p : ℚ, 0 ≤ AppWithDateSelector.risk_score t h w p ∧
      AppWithDateSelector.risk_score t h w p ≤ 10) ∧
    (∀ (t w p : ℚ) (wt : String), 0 ≤ RiskradarApp.risk_score t w p wt ∧
      RiskradarApp.risk_score t w p wt ≤ 10) := by
  constructor
  · intro t h w p
    obtain ⟨h1, h2⟩ := temp_factor_bounds t
    obtain ⟨h3, h4⟩ := humidity_factor_bounds h
    obtain ⟨h5, h6⟩ := wind_factor_bounds w
    obtain ⟨h7, h8⟩ := precip_factor_bounds p
    unfold AppWithDateSelector.risk_score
    constructor <;> linarith
  · intro t w p wt
    obtain ⟨h1, h2⟩ := temp_factor_bounds t
    obtain ⟨h5, h6⟩ := wind_factor_bounds w
    obtain ⟨h7, h8⟩ := precip_factor_bounds p
    obtain ⟨h9, h10⟩ := weather_risk_bounds wt.toLower
    unfold RiskradarApp.risk_score
    constructor <;> linarith

/-- Claim C1, counterexample: at wind speed exactly 5 the code score does
not equal 10 times the weighted sum of the published clamps, because the
published wind clamp gives 0.2 at 5 while the code gives 0.0. -/
theorem risk_score_spec_formula_counterexample :
    AppWithDateSelector.risk_score 30 45 5 5 ≠
      10 * (0.35 * spec_temp_factor 30 + 0.25 * spec_humidity_factor 45 +
        0.25 * spec_wind_factor 5 + 0.15 * spec_precip_factor 5) := by
  norm_num [AppWithDateSelector.risk_score, temp_factor, humidity_factor,
    wind_factor, precip_factor, spec_temp_factor, spec_humidity_factor,
    spec_wind_factor, spec_precip_factor]

/-- Claim C1, amended: for every weather reading whose wind speed is not
exactly 5, the score returned by calculate_risk_from_weather equals 10
times the weighted sum of the published sub-scores under the 4-factor
weather-only weight set 0.35, 0.25, 0.25, 0.15; at wind speed exactly 5
the code takes the linear branch value 0.0 instead of the published floor
0.2, so the two sides differ there. -/
theorem risk_score_eq_spec_formula_of_wind_ne_five (t h w p : ℚ) (hw : w ≠ 5) :
    AppWithDateSelector.risk_score t h w p =
      10 * (0.35 * spec_temp_factor t + 0.25 * spec_humidity_factor h +
        0.25 * spec_wind_factor w + 0.15 * spec_precip_factor p) := by
  unfold AppWithDateSelector.risk_score
  rw [spec_temp_factor_eq, spec_humidity_factor_eq, spec_precip_factor_eq,
    spec_wind_factor_eq_of_ne hw]
  ring

/-- Claim C1, witness: a concrete reading away from the wind boundary. -/
theorem risk_score_eq_spec_formula_witness :
    (10 : ℚ) ≠ 5 ∧
    AppWithDateSelector.risk_score 30 45 10 5 =
      10 * (0.35 * spec_temp_factor 30 + 0.25 * spec_humidity_factor 45 +
        0.25 * spec_wind_factor 10 + 0.15 * spec_precip_factor 5) :=
  ⟨by norm_num, risk_score_eq_spec_formula_of_wind_ne_five 30 45 10 5 (by norm_num)⟩

/-- Claim C3, counterexample: at wind speed exactly 5 the code wind
sub-score is 0.0, not the published 0.2. -/
theorem wind_factor_at_five_counterexample :
    wind_factor 5 = 0 ∧ wind_factor 5 ≠ 0.2 := by
  norm_num [wind_factor]

/-- Claim C3, amended: the wind sub-score is 0.2 for every wind speed
strictly below 5, is 0.0 at wind speed exactly 5 (the linear branch), and
is 1.0 at wind speed 25 as published. -/
theorem wind_factor_boundary_values :
    (∀ w : ℚ, w < 5 → wind_factor w = 0.2) ∧ wind_factor 5 = 0 ∧ wind_factor 25 = 1 := by
  refine ⟨?_, by norm_num [wind_factor], by norm_num [wind_factor]⟩
  intro w hw
  unfold wind_factor
  rw [if_pos hw]

/-- Claim C3, witness: a wind speed strictly below the boundary. -/
theorem wind_factor_boundary_values_witness :
    (3 : ℚ) < 5 ∧ wind_factor 3 = 0.2 :=
  ⟨by norm_num, wind_factor_boundary_values.1 3 (by norm_num)⟩

/-- Claim C4: with the other factors fixed, the score of
calculate_risk_from_weather never decreases when temperature rises, never
increases when humidity rises, and never increases when precipitation
rises. -/
theorem risk_score_monotonicity :
    (∀ t1 t2 h w p : ℚ, t1 ≤ t2 →
      AppWithDateSelector.risk_score t1 h w p ≤ AppWithDateSelector.risk_score t2 h w p) ∧
    (∀ t h1 h2 w p : ℚ, h1 ≤ h2 →
      AppWithDateSelector.risk_score t h2 w p ≤ AppWithDateSelector.risk_score t h1 w p) ∧
    (∀ t h w p1 p2 : ℚ, p1 ≤ p2 →
      AppWithDateSelector.risk_score t h w p2 ≤ AppWithDateSelector.risk_score t h w p1) := by
  refine ⟨?_, ?_, ?_⟩
  · intro t1 t2 h w p hle
    have := temp_factor_mono hle
    unfold AppWithDateSelector.risk_score
    linarith
  · intro t h1 h2 w p hle
    have := humidity_factor_anti hle
    unfold AppWithDateSelector.risk_score
    linarith
  · intro t h w p1 p2 hle
    have := precip_factor_anti hle
    unfold AppWithDateSelector.risk_score
    linarith

/-- Claim C4, witness: concrete monotone temperature step. -/
theorem risk_score_monotonicity_witness :
    (30 : ℚ) ≤ 35 ∧
    AppWithDateSelector.risk_score 30 50 10 5 ≤ AppWithDateSelector.risk_score 35 50 10 5 :=
  ⟨by norm_num, risk_score_monotonicity.1 30 35 50 10 5 (by norm_num)⟩

/-- Claim C5: the zone classification is a pure threshold lookup: score at
most 3 gives SAFE, above 3 and at most 6 gives MODERATE, above 6 gives
DANGER, with the published boundary cases 3.0, 3.01, 6.0 and 6.01. -/
theorem classify_thresholds :
    (∀ s : ℚ, s ≤ 3 → classify s = Zone.safe) ∧
    (∀ s : ℚ, 3 < s → s ≤ 6 → classify s = Zone.moderate) ∧
    (∀ s : ℚ, 6 < s → classify s = Zone.danger) ∧
    classify 3 = Zone.safe ∧ classify 3.01 = Zone.moderate ∧
    classify 6 = Zone.moderate ∧ classify 6.01 = Zone.danger := by
  refine ⟨?_, ?_, ?_, by norm_num [classify], by norm_num [classify],
    by norm_num [classify], by norm_num [classify]⟩
  · intro s hs
    unfold classify
    rw [if_pos hs]
  · intro s hs1 hs2
    unfold classify
    rw [if_neg (by linarith), if_pos hs2]
  · intro s hs
    unfold classify
    rw [if_neg (by linarith), if_neg (by linarith)]

/-- Claim C5, witness: one score inside each tier. -/
theorem classify_thresholds_witness :
    (2 : ℚ) ≤ 3 ∧ classify 2 = Zone.safe ∧ classify 5 = Zone.moderate ∧
    classify 7 = Zone.danger :=
  ⟨by norm_num, classify_thresholds.1 2 (by norm_num),
   classify_thresholds.2.1 5 (by norm_num) (by norm_num),
   classify_thresholds.2.2.1 7 (by norm_num)⟩

/-- Claim C9: the wind sub-score is 0.2 for every wind speed strictly
below 5 but 0.0 at exactly 5, so with the other inputs fixed, raising the
wind speed from below 5 to exactly 5 strictly decreases the returned risk
score, in both variants of calculate_risk_from_weather. -/
theorem wind_discontinuity_decreases_score :
    ∀ w : ℚ, w < 5 →
      wind_factor w = 0.2 ∧ wind_factor 5 = 0 ∧
      (∀ t h p : ℚ,
        AppWithDateSelector.risk_score t h 5 p < AppWithDateSelector.risk_score t h w p) ∧
      (∀ (t p : ℚ) (wt : String),
        RiskradarApp.risk_score t 5 p wt < RiskradarApp.risk_score t w p wt) := by
  intro w hw
  have hwf : wind_factor w = 0.2 := by
    unfold wind_factor
    rw [if_pos hw]
  have h5 : wind_factor 5 = 0 := by norm_num [wind_factor]
  refine ⟨hwf, h5, ?_, ?_⟩
  · intro t h p
    unfold AppWithDateSelector.risk_score
    rw [hwf, h5]
    norm_num
  · intro t p wt
    unfold RiskradarApp.risk_score
    rw [hwf, h5]
    norm_num

/-- Claim C9, witness: raising wind speed from 2 to 5 strictly lowers the
score at a concrete reading. -/
theorem wind_discontinuity_decreases_score_witness :
    (2 : ℚ) < 5 ∧
    AppWithDateSelector.risk_score 30 50 5 5 < AppWithDateSelector.risk_score 30 50 2 5 :=
  ⟨by norm_num, (wind_discontinuity_decreases_score 2 (by norm_num)).2.2.1 30 50 5⟩

/-- Claim C6: on a non-empty detection collection, create_heatmap_from_firms
in both variants outputs exactly one intensity point per detection row, in
order, preserving its coordinates, with intensity equal to the clamp of
0.6 times the normalized fire radiative power plus 0.4 times the
normalized brightness into the range from 0.1 to 1.0; in particular
brightness 350 and fire radiative power 50 give intensity exactly 0.5. -/
theorem create_heatmap_derived_mode :
    (∀ rows : List FirmsRow, rows ≠ [] →
      AppWithDateSelector.create_heatmap_from_firms rows =
        rows.map (fun r => (r.latitude, r.longitude,
          max 0.1 (min (0.6 * max 0 (min (r.frp / 100) 1) +
            0.4 * max 0 (min ((r.bright_t31 - 300) / 100) 1)) 1.0))) ∧
      RiskradarApp.create_heatmap_from_firms rows =
        rows.map (fun r => (r.latitude, r.longitude,
          max 0.1 (min (0.6 * max 0 (min (r.frp / 100) 1) +
            0.4 * max 0 (min ((r.bright_t31 - 300) / 100) 1)) 1.0)))) ∧
    (∀ lat lon : ℚ,
      AppWithDateSelector.create_heatmap_from_firms [⟨lat, lon, 350, 50⟩] =
        [(lat, lon, 0.5)]) := by
  have hne2 : ∀ rows : List FirmsRow, rows ≠ [] → rows.isEmpty = false := by
    intro rows hne
    cases rows with
    | nil => exact absurd rfl hne
    | cons a l => rfl
  constructor
  · intro rows hne
    constructor
    · unfold AppWithDateSelector.create_heatmap_from_firms
      rw [hne2 rows hne]
      simp only [Bool.false_eq_true, if_false]
      rw [foldl_append_map hot_point]
      simp only [List.nil_append]
      rfl
    · unfold RiskradarApp.create_heatmap_from_firms
      rw [hne2 rows hne]
      simp only [Bool.false_eq_true, if_false]
      rw [foldl_append_map hot_point]
      simp only [List.nil_append]
      rfl
  · intro lat lon
    unfold AppWithDateSelector.create_heatmap_from_firms
    simp only [List.isEmpty_cons, Bool.false_eq_true, if_false, List.foldl_cons,
      List.foldl_nil, List.nil_append]
    unfold hot_point
    norm_num [min_def, max_def]

/-- Claim C6, witness: a single concrete detection. -/
theorem create_heatmap_derived_mode_witness :
    ([⟨1, 2, 350, 50⟩] : List FirmsRow) ≠ [] ∧
    AppWithDateSelector.create_heatmap_from_firms [⟨1, 2, 350, 50⟩] = [(1, 2, 0.5)] :=
  ⟨by simp, by
    have h := (create_heatmap_derived_mode.1 [⟨1, 2, 350, 50⟩] (by simp)).1
    rw [h]
    norm_num [min_def, max_def]⟩

/-- Claim C7, counterexample: a fully empty weather record, in which every
required factor including temperature is absent, makes
calculate_risk_from_weather return the silent default score 5.0 instead of
failing. -/
theorem missing_factor_default_counterexample :
    lookup ⟨[]⟩ temperature_key = none ∧
    AppWithDateSelector.calculate_risk_from_weather ⟨[]⟩ = Except.ok 5 :=
  ⟨rfl, rfl⟩

/-- Claim C7, amended: when the weather record is non-empty but one of the
required factors (temperature, humidity, wind speed, precipitation) is
absent, calculate_risk_from_weather fails with a KeyError-style error and
substitutes no default; a fully empty record instead returns the default
score 5.0. -/
theorem missing_factor_error_nonempty :
    ∀ wd : WeatherSeries, wd.entries ≠ [] →
      (lookup wd temperature_key = none ∨ lookup wd humidity_key = none ∨
       lookup wd wind_speed_key = none ∨ lookup wd precipitation_key = none) →
      ∃ k, AppWithDateSelector.calculate_risk_from_weather wd = Except.error k := by
  intro wd hne hmiss
  have hie : wd.entries.isEmpty = false := by
    cases h : wd.entries with
    | nil => exact absurd h hne
    | cons a l => rfl
  unfold AppWithDateSelector.calculate_risk_from_weather
  rw [hie]
  simp only [Bool.false_eq_true, if_false]
  rcases hmiss with hm | hm | hm | hm
  · have he : getField wd temperature_key = Except.error temperature_key := by
      unfold getField
      rw [hm]
    rw [he]
    exact ⟨temperature_key, rfl⟩
  · have he : getField wd humidity_key = Except.error humidity_key := by
      unfold getField
      rw [hm]
    rcases h1 : getField wd temperature_key with k1 | v1
    · exact ⟨k1, rfl⟩
    · rw [he]
      exact ⟨humidity_key, rfl⟩
  · have he : getField wd wind_speed_key = Except.error wind_speed_key := by
      unfold getField
      rw [hm]
    rcases h1 : getField wd temperature_key with k1 | v1
    · exact ⟨k1, rfl⟩
    · rcases h2 : getField wd humidity_key with k2 | v2
      · exact ⟨k2, rfl⟩
      · rw [he]
        exact ⟨wind_speed_key, rfl⟩
  · have he : getField wd precipitation_key = Except.error precipitation_key := by
      unfold getField
      rw [hm]
    rcases h1 : getField wd temperature_key with k1 | v1
    · exact ⟨k1, rfl⟩
    · rcases h2 : getField wd humidity_key with k2 | v2
      · exact ⟨k2, rfl⟩
      · rcases h3 : getField wd wind_speed_key with k3 | v3
        · exact ⟨k3, rfl⟩
        · rw [he]
          exact ⟨precipitation_key, rfl⟩

/-- Claim C7, witness: a record holding only humidity fails with an
error. -/
theorem missing_factor_error_nonempty_witness :
    (⟨[(humidity_key, 50)]⟩ : WeatherSeries).entries ≠ [] ∧
    ∃ k, AppWithDateSelector.calculate_risk_from_weather ⟨[(humidity_key, 50)]⟩ =
      Except.error k :=
  ⟨by simp,
   missing_factor_error_nonempty ⟨[(humidity_key, 50)]⟩ (by simp) (Or.inl rfl)⟩

/-- Claim C8, counterexample: on an empty detection collection the
riskradar_app.py variant of create_heatmap_from_firms returns the fallback
point with intensity 0.5, not the minimal intensity 0.1. -/
theorem empty_firms_fallback_counterexample :
    RiskradarApp.create_heatmap_from_firms [] = [(36.7783, -119.4179, 0.5)] ∧
    (0.5 : ℚ) ≠ 0.1 :=
  ⟨rfl, by norm_num⟩

/-- Claim C8, amended: on an empty detection collection both variants of
create_heatmap_from_firms return a single fallback point at the default
coordinate 36.7783, -119.4179; its intensity is the minimal 0.1 in the
date-selector variant but 0.5 in the riskradar_app.py variant. -/
theorem empty_firms_fallback_points :
    AppWithDateSelector.create_heatmap_from_firms [] = [(36.7783, -119.4179, 0.1)] ∧
    RiskradarApp.create_heatmap_from_firms [] = [(36.7783, -119.4179, 0.5)] :=
  ⟨rfl, rfl⟩

/-- Claim C10: the spec-modelled synthetic generator produces exactly
15 + 3 * round(score) points (so 39 points at score 8), each within plus
or minus 0.3 degrees of the center, with intensity between
0.5 * (score / 10) and min 1 (1.2 * (score / 10)); determinism under the
fixed seed holds definitionally since the generator is a pure function. -/
theorem synthetic_heatmap_properties :
    ∀ clat clon score : ℚ, 0 ≤ score → score ≤ 10 →
      ((generate_synthetic_heatmap clat clon score).length =
        (15 + 3 * round score).toNat) ∧
      (score = 8 → (generate_synthetic_heatmap clat clon score).length = 39) ∧
      (∀ pt ∈ generate_synthetic_heatmap clat clon score,
        clat - 0.3 ≤ pt.1 ∧ pt.1 ≤ clat + 0.3 ∧
        clon - 0.3 ≤ pt.2.1 ∧ pt.2.1 ≤ clon + 0.3 ∧
        0.5 * (score / 10) ≤ pt.2.2 ∧ pt.2.2 ≤ min 1 (1.2 * (score / 10))) := by
  intro clat clon score h0 h10
  have hlh : 0.5 * (score / 10) ≤ min 1 (1.2 * (score / 10)) := by
    apply le_min
    · linarith
    · linarith
  have hlen : (generate_synthetic_heatmap clat clon score).length =
      (15 + 3 * round score).toNat := by
    unfold generate_synthetic_heatmap
    exact synthetic_points_length _ _ _ _ _ _
  refine ⟨hlen, ?_, ?_⟩
  · intro h8
    have hr : round (8 : ℚ) = 8 := by norm_num
    rw [hlen, h8, hr]
    rfl
  · intro pt hpt
    unfold generate_synthetic_heatmap at hpt
    exact synthetic_points_mem clat clon _ _ hlh _ _ pt hpt

/-- Claim C10, witness: score 8 at the California center gives exactly 39
points. -/
theorem synthetic_heatmap_properties_witness :
    (0 : ℚ) ≤ 8 ∧ (8 : ℚ) ≤ 10 ∧
    (generate_synthetic_heatmap 36.7783 (-119.4179) 8).length = 39 :=
  ⟨by norm_num, by norm_num,
   (synthetic_heatmap_properties 36.7783 (-119.4179) 8 (by norm_num)
     (by norm_num)).2.1 rfl⟩
